import Mathlib

/-!
Verification development for the message-bridge plugin's aggregation core.

The TypeScript sources are embedded shallowly: maps become functions
`String → Option β`, `Date.now()` becomes an explicit `now : Nat` field that
is constant within one handler invocation (the event loop is single threaded),
`setTimeout` callbacks become stored handles fired by an explicit step, and
string utilities mirror the JavaScript semantics used by the code
(`trim`, `toLowerCase`, substring containment, `/^\d+$/`).
-/

/-! ## JavaScript string primitives -/

/-- Character class of the JavaScript `\s` regex class (the members that can
occur in chat text; exotic unicode spaces are included for the common cases). -/
def isJsWhitespace (c : Char) : Bool :=
  c = ' ' || c = '\t' || c = '\n' || c = '\r' ||
  c = Char.ofNat 11 || c = Char.ofNat 12 || c = Char.ofNat 160 ||
  c = Char.ofNat 0x2028 || c = Char.ofNat 0x2029 || c = Char.ofNat 0xfeff

/-- JavaScript `String.prototype.trim` (whitespace per `\s`). -/
def jsTrim (s : String) : String :=
  String.mk (((s.toList.dropWhile isJsWhitespace).reverse.dropWhile isJsWhitespace).reverse)

/-- JavaScript `String.prototype.toLowerCase` (ASCII range, which is all the
code compares). -/
def jsToLower (s : String) : String :=
  String.mk (s.toList.map Char.toLower)

def listPrefixOf : List Char → List Char → Bool
  | [], _ => true
  | _ :: _, [] => false
  | a :: as, b :: bs => a = b && listPrefixOf as bs

def subListOf (pat : List Char) : List Char → Bool
  | [] => pat.isEmpty
  | c :: rest => listPrefixOf pat (c :: rest) || subListOf pat rest

/-- JavaScript `String.prototype.includes`: `pat` occurs inside `s`. -/
def containsSub (s pat : String) : Bool :=
  subListOf pat.toList s.toList

/-- Split on every character satisfying `p` (as JavaScript `split` on a
character class; empty pieces are produced at runs and ends, and every call
site filters them out). -/
def splitCharsAux (p : Char → Bool) : List Char → List Char → List String
  | [], acc => [String.mk acc.reverse]
  | c :: rest, acc =>
    if p c then String.mk acc.reverse :: splitCharsAux p rest []
    else splitCharsAux p rest (c :: acc)

def jsSplitOn (s : String) (p : Char → Bool) : List String :=
  splitCharsAux p s.toList []

/-- JavaScript `.replace(/\s+/g, ' ')`: collapse whitespace runs to one
space. The flag records whether the previous character was whitespace. -/
def collapseWsChars : Bool → List Char → List Char
  | _, [] => []
  | prevWs, c :: rest =>
    if isJsWhitespace c then
      if prevWs then collapseWsChars true rest
      else ' ' :: collapseWsChars true rest
    else c :: collapseWsChars false rest

/-- JavaScript `.replace(/[`'"“”‘’]/g, '')`: strip quote-like characters. -/
def stripQuoteChars (s : String) : String :=
  String.mk (s.toList.filter (fun c =>
    !(c = '`' || c = '\'' || c = '"' || c = '“' || c = '”' || c = '‘' || c = '’')))

/-- Numeric value of a digit string (JavaScript `Number` on an all-digit string). -/
def digitsVal (cs : List Char) : Nat :=
  cs.foldl (fun a c => a * 10 + (c.toNat - '0'.toNat)) 0

/-- JavaScript `/^\d+$/.test(s)`. -/
def isAllDigits (s : String) : Bool :=
  !s.isEmpty && s.toList.all Char.isDigit

/-- Truthiness of a nullable string (`null`/`undefined`/`""` are falsy). -/
def optStrTruthy : Option String → Bool
  | none => false
  | some s => s ≠ ""

/-! ## Message buffer data model

Modelled from the spec: `bridge/buffer.ts` is not part of the source snapshot;
spec §3 lists the `MessageBuffer` attributes and the `status` enum, which the
present handler sources (`execution.flow.ts`, `event/dispatch.ts`) access
field by field exactly as below. -/

inductive BufferStatus
  | streaming
  | done
  | aborted
  | error
deriving DecidableEq, Repr

structure SelectedModel where
  providerID : String
  modelID : String
  name : Option String
deriving DecidableEq, Repr

/-- Per-assistant-message accumulator. The tool map is an insertion-ordered
association list (mirroring the JS `Map` keyed by call id); `statusNote`,
`reasoning` and `text` use `""` for "absent". `executionCarried` embeds the
internal `__executionCarried` flag of `execution.flow.ts`. -/
structure MessageBuffer where
  text : String
  reasoning : String
  tools : List (String × String)
  files : List String
  status : BufferStatus
  statusNote : String
  platformMsgId : Option String
  lastDisplayHash : String
  lastUpdateTime : Nat
  selectedAgent : Option String
  selectedModel : Option SelectedModel
  isCommand : Bool
  executionCarried : Bool
deriving DecidableEq, Repr

/-- A fresh buffer, as created lazily on first part update. -/
def emptyBuffer : MessageBuffer :=
  { text := "", reasoning := "", tools := [], files := [],
    status := .streaming, statusNote := "", platformMsgId := none,
    lastDisplayHash := "", lastUpdateTime := 0, selectedAgent := none,
    selectedModel := none, isCommand := false, executionCarried := false }

/-! ## Execution/answer splitter (`src/handler/execution.flow.ts`) -/

def EXECUTION_TO_ANSWER_SPLIT_MIN_TEXT : Nat := 120

/-- `hasSubstantiveAnswerText`: `(buf?.text || '').trim().length > 1`. -/
def hasSubstantiveAnswerText (buf : MessageBuffer) : Bool :=
  decide (1 < (jsTrim buf.text).length)

/-- `hasExecutionLikeContent`: nonempty tool map or non-blank reasoning. -/
def hasExecutionLikeContent (buf : MessageBuffer) : Bool :=
  !buf.tools.isEmpty || jsTrim buf.reasoning ≠ ""

/-- `isToolCallPhase`: the lowercased status note mentions tool calls. -/
def isToolCallPhase (buf : MessageBuffer) : Bool :=
  containsSub (jsToLower buf.statusNote) "tool-calls" ||
  containsSub (jsToLower buf.statusNote) "tool calls"

/-- `isTerminalStatus`. -/
def isTerminalStatus (status : BufferStatus) : Bool :=
  status = .done || status = .error || status = .aborted

/-- `shouldCarryPlatformMessageAcrossAssistantMessages` (execution.flow.ts:25-34). -/
def shouldCarryPlatformMessageAcrossAssistantMessages (prevBuf : MessageBuffer) : Bool :=
  if !optStrTruthy prevBuf.platformMsgId then false
  else if prevBuf.status = .error || prevBuf.status = .aborted then false
  else if isToolCallPhase prevBuf then true
  else if !hasExecutionLikeContent prevBuf then false
  else !hasSubstantiveAnswerText prevBuf

/-- The mutation `carryPlatformMessage` performs on the receiving buffer
(execution.flow.ts:36-45), given the donor's pre-state. -/
def carryInto (nextBuf prevBuf : MessageBuffer) : MessageBuffer :=
  { nextBuf with
    platformMsgId := prevBuf.platformMsgId
    lastDisplayHash := ""
    executionCarried := true
    tools :=
      if nextBuf.tools.isEmpty && !prevBuf.tools.isEmpty then prevBuf.tools
      else nextBuf.tools
    files :=
      if nextBuf.files.isEmpty && !prevBuf.files.isEmpty then prevBuf.files
      else nextBuf.files }

/-- `shouldSplitOutFinalAnswer` (execution.flow.ts:49-54). -/
def shouldSplitOutFinalAnswer (buffer : MessageBuffer) : Bool :=
  if !optStrTruthy buffer.platformMsgId || !buffer.executionCarried then false
  else if isToolCallPhase buffer then false
  else decide (EXECUTION_TO_ANSWER_SPLIT_MIN_TEXT ≤ (jsTrim buffer.text).length)

/-- `splitFinalAnswerFromExecution` (execution.flow.ts:56-63). -/
def splitFinalAnswerFromExecution (buffer : MessageBuffer) : MessageBuffer :=
  { buffer with
    platformMsgId := none
    lastDisplayHash := ""
    executionCarried := false
    tools := []
    reasoning := "" }

/-- The execution view built by `buildFinalizedExecutionContent`
(execution.flow.ts:66-71): answer text blanked, status forced to done. -/
def finalizedExecutionView (buffer : MessageBuffer) : MessageBuffer :=
  { buffer with
    text := ""
    status := .done
    statusNote := if buffer.statusNote = "" then "tool-calls" else buffer.statusNote }

/-- `buildFinalizedExecutionContent` (execution.flow.ts:65-73). Modelled from
the spec: `buildDisplayContent` lives in the absent `bridge/buffer.ts`; spec
§4.1 specifies it as a pure function of the buffer, so it is passed here as
the `render` argument. -/
def buildFinalizedExecutionContent (render : MessageBuffer → String)
    (buffer : MessageBuffer) : String :=
  render (finalizedExecutionView buffer)

/-! ### Buffer stores and carry/split operation sequences (for the ownership
invariant). A store maps message ids to buffers, mirroring
`deps.msgBuffers` after `getOrInitBuffer`. -/

def BufStore : Type := String → MessageBuffer

def setBuf (s : BufStore) (id : String) (b : MessageBuffer) : BufStore :=
  fun x => if x = id then b else s x

/-- `carryPlatformMessage(prev, next)` as a store transformer: the writes are
sequenced exactly as in the source (receiver updated first, then the donor's
platform id nulled), which also reproduces the aliased `prev === next` case. -/
def carryPlatformMessage (s : BufStore) (prevId nextId : String) : BufStore :=
  let prev := s prevId
  let s1 := setBuf s nextId (carryInto (s nextId) prev)
  setBuf s1 prevId { s1 prevId with platformMsgId := none }

/-- `splitFinalAnswerFromExecution(buffer)` as a store transformer. -/
def splitStore (s : BufStore) (id : String) : BufStore :=
  setBuf s id (splitFinalAnswerFromExecution (s id))

inductive CarrySplitOp
  | carry (prevId nextId : String)
  | split (id : String)

def applyCarrySplitOp (s : BufStore) : CarrySplitOp → BufStore
  | .carry prevId nextId => carryPlatformMessage s prevId nextId
  | .split id => splitStore s id

def applyCarrySplitOps (s : BufStore) (ops : List CarrySplitOp) : BufStore :=
  ops.foldl applyCarrySplitOp s

/-- At most one buffer holds a given non-null platform message id. -/
def uniquePlatformOwnership (s : BufStore) : Prop :=
  ∀ m1 m2 v, (s m1).platformMsgId = some v → (s m2).platformMsgId = some v → m1 = m2

/-! ## Question proxy (`question.proxy` module) -/

def QUESTION_TIMEOUT_MS : Nat := 15 * 60 * 1000

structure NormalizedQuestionOption where
  label : String
  description : Option String
deriving DecidableEq, Repr

structure NormalizedQuestionItem where
  id : String
  header : Option String
  question : String
  options : List NormalizedQuestionOption
  freeText : Bool
  multiple : Bool
deriving DecidableEq, Repr

structure NormalizedQuestionPayload where
  questions : List NormalizedQuestionItem
deriving DecidableEq, Repr

structure ResolvedQuestionAnswer where
  questionId : String
  questionIndex : Nat
  selectedIndex : Int
  selectedLabel : String
  raw : String
deriving DecidableEq, Repr

structure PendingQuestionState where
  key : String
  adapterKey : String
  chatId : String
  sessionId : String
  messageId : String
  callID : String
  payload : NormalizedQuestionPayload
  createdAt : Nat
  dueAt : Nat
deriving DecidableEq, Repr

/-- `normalizeToken`: lowercase, strip quote characters, collapse whitespace,
trim. -/
def normalizeQToken (s : String) : String :=
  jsTrim (String.mk (collapseWsChars false (stripQuoteChars (jsToLower s)).toList))

def defaultQuestionOption : NormalizedQuestionOption := { label := "", description := none }

/-- `resolveSelection(question, raw)` — numeric index, then exact normalized
label, then substring containment, then free-text fallback. Returns the
selected index (`-1` for free text) and label. -/
def resolveSelection (question : NormalizedQuestionItem) (raw : String) :
    Option (Int × String) :=
  let token := jsTrim raw
  if token = "" then none
  else if question.freeText && question.options.isEmpty then some (-1, token)
  else
    let numeric : Option (Int × String) :=
      if isAllDigits token then
        let idx : Int := (digitsVal token.toList : Int) - 1
        if 0 ≤ idx ∧ idx < question.options.length then
          some (idx, (question.options.getD idx.toNat defaultQuestionOption).label)
        else none
      else none
    match numeric with
    | some r => some r
    | none =>
      let normalized := normalizeQToken token
      if normalized = "" then none
      else
        match question.options.findIdx? (fun opt => normalizeQToken opt.label = normalized) with
        | some i => some ((i : Int), (question.options.getD i defaultQuestionOption).label)
        | none =>
          match question.options.findIdx?
              (fun opt => containsSub (normalizeQToken opt.label) normalized) with
          | some i => some ((i : Int), (question.options.getD i defaultQuestionOption).label)
          | none => if question.freeText then some (-1, token) else none

/-- `splitInputTokens`: split on `[\n,;；，]+`, trim, drop empties. -/
def splitInputTokens (raw : String) : List String :=
  ((jsSplitOn raw (fun c => ['\n', ',', ';', '；', '，'].contains c)).map jsTrim).filter
    (fun s => s ≠ "")

/-- The regex `/^q?(\d+)\s*[:：=]\s*(.+)$/i` of the multi-question loop:
optional `q`/`Q`, a question number, a separator, and the value text (regex
backtracking makes `(.+)` keep at least one character of the remainder). -/
def matchQToken (token : String) : Option (Nat × String) :=
  let cs := token.toList
  let cs1 :=
    match cs with
    | c :: rest => if c = 'q' || c = 'Q' then rest else cs
    | [] => cs
  let digits := cs1.takeWhile Char.isDigit
  let rest1 := cs1.dropWhile Char.isDigit
  if digits.isEmpty then none
  else
    match rest1.dropWhile isJsWhitespace with
    | [] => none
    | sep :: rest3 =>
      if sep = ':' || sep = '：' || sep = '=' then
        if rest3.isEmpty then none
        else
          let ws := rest3.takeWhile isJsWhitespace
          some (digitsVal digits, String.mk (rest3.drop (min ws.length (rest3.length - 1))))
      else none

def defaultQuestionItem : NormalizedQuestionItem :=
  { id := "", header := none, question := "", options := [], freeText := true,
    multiple := false }

def mkResolvedAnswer (question : NormalizedQuestionItem) (idx : Nat)
    (sel : Int × String) (rawTok : String) : ResolvedQuestionAnswer :=
  { questionId := question.id, questionIndex := idx, selectedIndex := sel.1,
    selectedLabel := sel.2, raw := rawTok }

/-- Result of `parseUserReply`. The multi-question branch returns the
`new Array(questions.length)` answers array as built, which is sparse:
`none` stands for a hole (an index never assigned). -/
inductive ParseReply
  | ok (answers : List (Option ResolvedQuestionAnswer))
  | err (reason : String)
deriving DecidableEq, Repr

inductive FillSlots
  | ok (slots : List (Option ResolvedQuestionAnswer))
  | err (reason : String)
deriving DecidableEq, Repr

/-- The `for (const token of tokens)` loop of `parseUserReply`: `Q<k>:<value>`
tokens fill answer slots; an out-of-range number is skipped; an unmatched
value rejects the whole reply. -/
def fillQTokens (questions : List NormalizedQuestionItem) :
    List String → List (Option ResolvedQuestionAnswer) → FillSlots
  | [], acc => .ok acc
  | token :: rest, acc =>
    match matchQToken token with
    | none => fillQTokens questions rest acc
    | some (num, value) =>
      if 1 ≤ num ∧ num ≤ questions.length then
        let qi := num - 1
        let question := questions.getD qi defaultQuestionItem
        match resolveSelection question value with
        | none => .err ("unmatched-q" ++ toString (qi + 1))
        | some sel =>
          fillQTokens questions rest (acc.set qi (some (mkResolvedAnswer question qi sel token)))
      else fillQTokens questions rest acc

/-- The positional pass (`tokens.length === questions.length`): fill every
still-empty slot from the token at the same position; `i` is the current
index. Unreachable from `parseUserReply` (the sparse-every gate before it
always returns), but translated since the source contains it. -/
def fillPositional (i : Nat) :
    List NormalizedQuestionItem → List String → List (Option ResolvedQuestionAnswer) →
    FillSlots
  | question :: qs, token :: ts, slot :: ss =>
    match slot with
    | some a =>
      match fillPositional (i + 1) qs ts ss with
      | .ok out => .ok (some a :: out)
      | .err e => .err e
    | none =>
      match resolveSelection question token with
      | none => .err ("unmatched-q" ++ toString (i + 1))
      | some sel =>
        match fillPositional (i + 1) qs ts ss with
        | .ok out => .ok (some (mkResolvedAnswer question i sel token) :: out)
        | .err e => .err e
  | _, _, ss => .ok ss

/-- `answers.every(Boolean)` on the sparse answers array. ECMAScript `every`
skips holes (`none`), and every present element is an answer object, which
`Boolean` maps to true — so the check passes at every position and the
function is constantly true (see `reply_partial_acceptance_bug`). -/
def jsSparseEveryTruthy (answers : List (Option ResolvedQuestionAnswer)) : Bool :=
  answers.all (fun slot =>
    match slot with
    | none => true
    | some _ => true)

/-- `renderQuestionBlock(question, index)` (question.proxy module). -/
def renderQuestionBlock (question : NormalizedQuestionItem) (index : Nat) : List String :=
  let head := "### Q" ++ toString (index + 1) ++
    (match question.header with
     | some h => if h ≠ "" then " " ++ h else ""
     | none => "")
  if question.freeText && question.options.isEmpty then
    [head, question.question, "请直接回复你的答案（文本输入）。"]
  else
    [head, question.question] ++
      (question.options.enum.flatMap (fun p =>
        (toString (p.1 + 1) ++ ". " ++ p.2.label) ::
          (match p.2.description with
           | some d => if d ≠ "" then ["   - " ++ d] else []
           | none => [])))

/-- `renderQuestionPrompt(state)` (question.proxy module). -/
def renderQuestionPrompt (state : PendingQuestionState) : String :=
  let hasFreeText :=
    state.payload.questions.any (fun q => q.freeText && q.options.isEmpty)
  let header :=
    ["## Question",
     if hasFreeText then "检测到本轮需要你回答问题，请直接回复答案："
     else "检测到本轮需要你选择选项，请直接回复答案：",
     ""]
  let blocks :=
    state.payload.questions.enum.flatMap (fun p => renderQuestionBlock p.2 p.1 ++ [""])
  let examples :=
    match state.payload.questions with
    | [q] =>
      if q.freeText && q.options.isEmpty then ["回复示例：`你的 workspace_id`"]
      else ["回复示例：`1` 或 `选项文本`"]
    | _ => ["回复示例：`Q1:2,Q2:你的答案` 或 `2,你的答案`"]
  String.intercalate "\n"
    (header ++ blocks ++ examples ++ ["15分钟内未回复将自动取消本轮提问。"])

/-- `renderReplyHint(state)` (question.proxy module). -/
def renderReplyHint (state : PendingQuestionState) : String :=
  let hasFreeText :=
    state.payload.questions.any (fun q => q.freeText && q.options.isEmpty)
  if hasFreeText then
    if state.payload.questions.length = 1 then "未识别你的答案，请直接回复文本答案。"
    else "未识别你的答案，请回复 `Q1:2,Q2:你的答案`（或按顺序 `2,你的答案`）。"
  else
    if state.payload.questions.length = 1 then
      "未识别你的答案，请回复 `1`/`2`/`3` 或直接回复选项文本。"
    else "未识别你的答案，请回复 `Q1:2,Q2:1`（或按顺序 `2,1`），也可用选项文本。"

/-- The multi-question branch of `parseUserReply`: `Q<k>:<value>` tokens fill
slots of the sparse answers array, then `answers.every(Boolean)` gates the ok
return. Because `every` skips the holes of `new Array(n)`
(`jsSparseEveryTruthy` is constantly true), that gate always passes once the
token loop has not rejected, so partially — even wholly — unanswered arrays
are returned as ok, and the positional pass plus the `incomplete-multi`
rejection below it are unreachable (they are kept here as the source keeps
them). -/
def parseMulti (questions : List NormalizedQuestionItem) (raw : String) : ParseReply :=
  match fillQTokens questions (splitInputTokens raw)
      (List.replicate questions.length none) with
  | .err e => .err e
  | .ok slots =>
    if jsSparseEveryTruthy slots then .ok slots
    else
      if (splitInputTokens raw).length = questions.length then
        match fillPositional 0 questions (splitInputTokens raw) slots with
        | .err e => .err e
        | .ok slots2 =>
          if jsSparseEveryTruthy slots2 then .ok slots2
          else .err "incomplete-multi"
      else .err "incomplete-multi"

/-- `parseUserReply(text, state)` (question.proxy module). -/
def parseUserReply (text : String) (state : PendingQuestionState) : ParseReply :=
  let raw := jsTrim text
  if raw = "" then .err "empty"
  else
    match state.payload.questions with
    | [question] =>
      match resolveSelection question raw with
      | none => .err "unmatched-single"
      | some sel => .ok [some (mkResolvedAnswer question 0 sel raw)]
    | [] => parseMulti [] raw
    | q1 :: q2 :: rest => parseMulti (q1 :: q2 :: rest) raw

/-! ## Shared bridge state

One record bundling the dependency maps (`EventFlowDeps` plus the proxy-owned
handled-call sets and dedupe caches). Maps are total functions from keys;
`outbox` collects adapter `sendMessage` calls (most recent first); `now` is
the explicit clock read by `Date.now()`, constant within a handler run.
LRU caches are modelled with their ttl semantics (entries expire on read);
their size bounds are not modelled because no claim exercises eviction. -/

structure SessionContext where
  chatId : String
  senderId : String
deriving DecidableEq, Repr

/-- The closure parameters captured by the question-timeout `setTimeout`
callback in `armPendingQuestionPrompt`. -/
structure QuestionTimerHandle where
  cacheKey : String
  callID : String
  messageId : String
deriving DecidableEq, Repr

inductive PatternValue
  | str (s : String)
  | arr (l : List String)
deriving DecidableEq, Repr

inductive AuthMode
  | permissionRequest
  | sessionBlocked
deriving DecidableEq, Repr

/-- `PendingAuthorizationState` (authorization.proxy.ts:5-21); the
`deferredParts` replay payload is routed through untouched by the permission
handler and is omitted here. -/
structure PendingAuthorizationState where
  mode : AuthMode
  key : String
  adapterKey : String
  chatId : String
  senderId : String
  sessionId : String
  permissionID : Option String
  permissionType : Option String
  permissionTitle : Option String
  permissionPattern : Option PatternValue
  blockedReason : String
  source : String
  createdAt : Nat
  dueAt : Nat
deriving DecidableEq, Repr

/-- Closure parameters captured by the authorization-timeout callbacks. -/
structure AuthTimerHandle where
  cacheKey : String
  sessionId : String
  permissionID : Option String
  forBlockedSession : Bool
deriving DecidableEq, Repr

structure BridgeState where
  sessionToCtx : String → Option SessionContext
  sessionToAdapterKey : String → Option String
  adapters : String → Bool
  chatPendingQuestion : String → Option PendingQuestionState
  pendingQuestionTimers : String → Option QuestionTimerHandle
  handledQuestionCalls : String → List String
  chatPendingAuthorization : String → Option PendingAuthorizationState
  pendingAuthorizationTimers : String → Option AuthTimerHandle
  recentPermissionEventAt : String → Option Nat
  recentPermissionPromptBySession : String → Option (Nat × String)
  outbox : List (String × String)
  now : Nat

/-- Point update of a string-keyed map. -/
def upd {β : Type} (m : String → Option β) (k : String) (v : Option β) :
    String → Option β :=
  fun x => if x = k then v else m x

/-- `adapter.sendMessage(chatId, text)` (delivery recorded in the outbox). -/
def sendMessage (σ : BridgeState) (chatId text : String) : BridgeState :=
  { σ with outbox := (chatId, text) :: σ.outbox }

def setPendingQuestion (σ : BridgeState) (k : String)
    (v : Option PendingQuestionState) : BridgeState :=
  { σ with chatPendingQuestion := upd σ.chatPendingQuestion k v }

def setQuestionTimer (σ : BridgeState) (k : String)
    (v : Option QuestionTimerHandle) : BridgeState :=
  { σ with pendingQuestionTimers := upd σ.pendingQuestionTimers k v }

def setPendingAuth (σ : BridgeState) (k : String)
    (v : Option PendingAuthorizationState) : BridgeState :=
  { σ with chatPendingAuthorization := upd σ.chatPendingAuthorization k v }

def setAuthTimer (σ : BridgeState) (k : String)
    (v : Option AuthTimerHandle) : BridgeState :=
  { σ with pendingAuthorizationTimers := upd σ.pendingAuthorizationTimers k v }

def setEventAt (σ : BridgeState) (k : String) (v : Option Nat) : BridgeState :=
  { σ with recentPermissionEventAt := upd σ.recentPermissionEventAt k v }

def setPromptCache (σ : BridgeState) (k : String) (v : Option (Nat × String)) :
    BridgeState :=
  { σ with recentPermissionPromptBySession := upd σ.recentPermissionPromptBySession k v }

/-- `getCacheKeyBySession` (interaction module): cache key, adapter key, chat. -/
def getCacheKeyBySession (sessionId : String) (σ : BridgeState) :
    Option (String × String × String) :=
  match σ.sessionToCtx sessionId, σ.sessionToAdapterKey sessionId with
  | some ctx, some adapterKey => some (adapterKey ++ ":" ++ ctx.chatId, adapterKey, ctx.chatId)
  | _, _ => none

/-- `clearPendingQuestionForChat`: cancel and drop the timer, drop the state. -/
def clearPendingQuestionForChat (σ : BridgeState) (cacheKey : String) : BridgeState :=
  setPendingQuestion (setQuestionTimer σ cacheKey none) cacheKey none

/-- `clearPendingAuthorizationForChat`. -/
def clearPendingAuthorizationForChat (σ : BridgeState) (cacheKey : String) : BridgeState :=
  setPendingAuth (setAuthTimer σ cacheKey none) cacheKey none

def questionCallToken (messageId callID : String) : String :=
  messageId ++ "::" ++ callID

/-- The per-chat handled-call set update of `markQuestionCallHandled`
(proxy/index.ts:70-79): insertion-ordered set, oldest entry evicted past 200. -/
def pushHandledToken (set0 : List String) (token : String) : List String :=
  let set1 := if set0.contains token then set0 else set0 ++ [token]
  if 200 < set1.length then set1.drop 1 else set1

/-- `markQuestionCallHandled` (proxy/index.ts:70-79). -/
def markQuestionCallHandled (σ : BridgeState) (cacheKey messageId callID : String) :
    BridgeState :=
  let updated := fun x =>
    if x = cacheKey then
      pushHandledToken (σ.handledQuestionCalls cacheKey) (questionCallToken messageId callID)
    else σ.handledQuestionCalls x
  { σ with handledQuestionCalls := updated }

/-- `isQuestionCallHandled` (proxy/index.ts:81-84). -/
def isQuestionCallHandled (σ : BridgeState) (cacheKey messageId callID : String) : Bool :=
  (σ.handledQuestionCalls cacheKey).contains (questionCallToken messageId callID)

def questionTimeoutMessage : String :=
  "## Status\n⏰ 超时，本轮提问已取消。请重新发起问题。"

/-- `armPendingQuestionPrompt` (interaction module, part 125-180): persist the
pending state with a 15-minute due time, send the rendered prompt, register
the timeout timer. Returns the updated state and the handler's boolean. -/
def armPendingQuestionPrompt (sessionId messageId callID : String)
    (payload : NormalizedQuestionPayload) (σ : BridgeState) : BridgeState × Bool :=
  match getCacheKeyBySession sessionId σ with
  | none => (σ, false)
  | some (cacheKey, adapterKey, chatId) =>
    if isQuestionCallHandled σ cacheKey messageId callID then (σ, false)
    else
      let existingMatches :=
        match σ.chatPendingQuestion cacheKey with
        | some existing => existing.callID = callID && existing.messageId = messageId
        | none => false
      if existingMatches then (σ, true)
      else
        let σ1 := clearPendingQuestionForChat σ cacheKey
        let pending : PendingQuestionState :=
          { key := cacheKey, adapterKey := adapterKey, chatId := chatId,
            sessionId := sessionId, messageId := messageId, callID := callID,
            payload := payload, createdAt := σ.now,
            dueAt := σ.now + QUESTION_TIMEOUT_MS }
        let σ2 := setPendingQuestion σ1 cacheKey (some pending)
        let σ3 :=
          if σ.adapters adapterKey then sendMessage σ2 chatId (renderQuestionPrompt pending)
          else σ2
        let timerHandle : QuestionTimerHandle :=
          { cacheKey := cacheKey, callID := callID, messageId := messageId }
        let σ4 := setQuestionTimer σ3 cacheKey (some timerHandle)
        (σ4, true)

/-- The question-timeout callback registered by `armPendingQuestionPrompt`:
a stale timer (pending gone or re-armed for another call) does nothing;
otherwise mark the call handled, clear state plus timer, notify the chat. -/
def fireQuestionTimer (h : QuestionTimerHandle) (σ : BridgeState) : BridgeState :=
  match σ.chatPendingQuestion h.cacheKey with
  | none => σ
  | some current =>
    if current.callID = h.callID && current.messageId = h.messageId then
      let σ1 := markQuestionCallHandled σ h.cacheKey h.messageId h.callID
      let σ2 := clearPendingQuestionForChat σ1 h.cacheKey
      if σ.adapters current.adapterKey then
        sendMessage σ2 current.chatId questionTimeoutMessage
      else σ2
    else σ

/-! ## Authorization / permission proxy (interaction module + authorization.proxy.ts) -/

def AUTH_TIMEOUT_MS : Nat := 15 * 60 * 1000
def PERMISSION_DEDUPE_WINDOW_MS : Nat := 3000
def PERMISSION_PROMPT_DEDUPE_WINDOW_MS : Nat := 30000

/-- ttl-checked read of the `recentPermissionEventAt` LRU (ttl = 4 × 3s). -/
def lruGetEventAt (m : String → Option Nat) (now : Nat) (k : String) : Option Nat :=
  match m k with
  | some t => if now - t < PERMISSION_DEDUPE_WINDOW_MS * 4 then some t else none
  | none => none

/-- ttl-checked read of the `recentPermissionPromptBySession` LRU (ttl = 4 × 30s). -/
def lruGetPrompt (m : String → Option (Nat × String)) (now : Nat) (k : String) :
    Option (Nat × String) :=
  match m k with
  | some (t, sig) =>
    if now - t < PERMISSION_PROMPT_DEDUPE_WINDOW_MS * 4 then some (t, sig) else none
  | none => none

/-- `shouldSkipDuplicatePermissionEvent`: read the last time this
(scope, session, id) was seen, record the current time, and skip when the
previous sighting was under 3 seconds ago. -/
def shouldSkipDuplicatePermissionEvent (scope sid id : String) (σ : BridgeState) :
    Bool × BridgeState :=
  let key := scope ++ ":" ++ sid ++ ":" ++ id
  let last := lruGetEventAt σ.recentPermissionEventAt σ.now key
  let σ' := setEventAt σ key (some σ.now)
  (match last with
   | some t => decide (σ.now - t < PERMISSION_DEDUPE_WINDOW_MS)
   | none => false, σ')

def patternText : Option PatternValue → String
  | none => ""
  | some (.str s) => s
  | some (.arr l) => String.intercalate "|" l

/-- `permissionSignature`: `[type, title, pattern, callID].join('::')`. -/
def permissionSignature (ptype : Option String) (title : String)
    (pattern : Option PatternValue) (callID : Option String) : String :=
  ptype.getD "" ++ "::" ++ title ++ "::" ++ patternText pattern ++ "::" ++ callID.getD ""

/-- JavaScript `a || b` on strings. -/
def strOr (a b : String) : String := if a ≠ "" then a else b

/-- `renderAuthorizationPrompt` (authorization.proxy.ts:107-140). -/
def renderAuthorizationPrompt (state : PendingAuthorizationState) : String :=
  if state.mode = .permissionRequest then
    String.intercalate "\n"
      (["## Question", "OpenCode 请求权限，请选择："] ++
        (match state.permissionTitle with
         | some t => if t ≠ "" then ["权限：" ++ t] else []
         | none => []) ++
        (match state.permissionType with
         | some t => if t ≠ "" then ["类型：" ++ t] else []
         | none => []) ++
        (match state.permissionPattern with
         | some p =>
           let txt := match p with
             | .arr l => String.intercalate ", " l
             | .str s => s
           if txt ≠ "" then ["范围：" ++ txt] else []
         | none => []) ++
        ["", "1. 允许一次", "2. 始终允许", "3. 拒绝", "",
         "如果你不想处理授权、直接发新话题，我会切到新会话继续。"])
  else
    String.intercalate "\n"
      (["## Question", "检测到当前会话需要你在 OpenCode 网页完成权限授权。"] ++
        (if state.blockedReason ≠ "" then ["原因：" ++ state.blockedReason] else []) ++
        ["", "请回复：", "1. 已授权，继续当前会话", "2. 先不授权，切换新会话继续", "",
         "如果你直接发送新话题，我会默认切换到新会话继续。"])

/-- The route fields extractable from an event's `properties` bag by
`hydrateSessionRouteFromEventProps`; `none` stands for "no candidate object
carried both a chat id and an adapter key". -/
structure RouteHint where
  chatId : String
  adapterKey : String
  senderId : Option String
deriving DecidableEq, Repr

/-- `hydrateSessionRouteFromEventProps` (interaction module): fill the route
maps only where no entry exists yet. -/
def hydrateSessionRouteFromEventProps (sessionId : String) (hint : Option RouteHint)
    (σ : BridgeState) : BridgeState × Bool :=
  match hint with
  | none => (σ, false)
  | some h =>
    let σ1 :=
      if (σ.sessionToCtx sessionId).isNone then
        { σ with sessionToCtx := fun x =>
            if x = sessionId then some { chatId := h.chatId, senderId := h.senderId.getD "system" }
            else σ.sessionToCtx x }
      else σ
    let σ2 :=
      if (σ.sessionToAdapterKey sessionId).isNone then
        { σ1 with sessionToAdapterKey := fun x =>
            if x = sessionId then some h.adapterKey else σ1.sessionToAdapterKey x }
      else σ1
    (σ2, true)

/-- The fields `handlePermissionUpdatedEvent` extracts from the event
(`readStringField` never yields the empty string; absent fields are `none`). -/
structure PermissionEventInput where
  sessionID : Option String
  permissionID : Option String
  ptype : Option String
  title : Option String
  pattern : Option PatternValue
  callID : Option String
  routeHint : Option RouteHint
deriving Repr

/-- The create-and-prompt tail of the `permission_request` path: record the
prompt signature, replace any pending authorization, arm the timeout timer and
send the 3-way prompt. -/
def createPermissionRequestPrompt (sid pid : String) (e : PermissionEventInput)
    (permissionTitle cacheKey adapterKey chatId : String) (ctx : SessionContext)
    (sig : String) (σ : BridgeState) : BridgeState :=
  let σ1 := setPromptCache σ cacheKey (some (σ.now, sig))
  let σ2 := clearPendingAuthorizationForChat σ1 cacheKey
  let pending : PendingAuthorizationState :=
    { mode := .permissionRequest, key := cacheKey, adapterKey := adapterKey,
      chatId := chatId, senderId := ctx.senderId, sessionId := sid,
      permissionID := some pid, permissionType := e.ptype,
      permissionTitle := some permissionTitle, permissionPattern := e.pattern,
      blockedReason := permissionTitle, source := "bridge.incoming",
      createdAt := σ.now, dueAt := σ.now + AUTH_TIMEOUT_MS }
  let σ3 := setPendingAuth σ2 cacheKey (some pending)
  let authHandle : AuthTimerHandle :=
    { cacheKey := cacheKey, sessionId := sid, permissionID := some pid,
      forBlockedSession := false }
  let σ4 := setAuthTimer σ3 cacheKey (some authHandle)
  sendMessage σ4 chatId (renderAuthorizationPrompt pending)

/-- The signature-window tail: an identical prompt signature in the 30s window
only refreshes the pending record (when one of `permission_request` mode
exists) and sends nothing; otherwise create and prompt. -/
def dedupeOrCreatePermissionPrompt (sid pid : String) (e : PermissionEventInput)
    (permissionTitle cacheKey adapterKey chatId : String) (ctx : SessionContext)
    (σ : BridgeState) : BridgeState :=
  let sig := permissionSignature e.ptype permissionTitle e.pattern e.callID
  match lruGetPrompt σ.recentPermissionPromptBySession σ.now cacheKey with
  | some (seenAt, prevSig) =>
    if prevSig = sig && decide (σ.now - seenAt < PERMISSION_PROMPT_DEDUPE_WINDOW_MS) then
      match σ.chatPendingAuthorization cacheKey with
      | some pending =>
        if pending.mode = .permissionRequest then
          setPendingAuth σ cacheKey
            (some { pending with
                    permissionID := some pid
                    permissionType := e.ptype
                    permissionTitle := some permissionTitle
                    permissionPattern := e.pattern })
        else σ
      | none => σ
    else createPermissionRequestPrompt sid pid e permissionTitle cacheKey adapterKey chatId ctx sig σ
  | none => createPermissionRequestPrompt sid pid e permissionTitle cacheKey adapterKey chatId ctx sig σ

/-- `handlePermissionUpdatedEvent` (interaction module, part 319-485). -/
def handlePermissionUpdatedEvent (e : PermissionEventInput) (σ0 : BridgeState) :
    BridgeState :=
  let σ :=
    match e.sessionID with
    | some sid => (hydrateSessionRouteFromEventProps sid e.routeHint σ0).1
    | none => σ0
  let permissionTitle := strOr (e.title.getD "") (strOr (e.ptype.getD "") "权限请求")
  match e.sessionID with
  | none => σ
  | some sid =>
    match e.permissionID with
    | none =>
      -- missing permission id → `session_blocked` deferred-authorization prompt
      match getCacheKeyBySession sid σ with
      | none => σ
      | some (cacheKey, adapterKey, chatId) =>
        if σ.adapters adapterKey then
          match σ.sessionToCtx sid with
          | none => σ
          | some ctx =>
            let σ1 := clearPendingAuthorizationForChat σ cacheKey
            let pending : PendingAuthorizationState :=
              { mode := .sessionBlocked, key := cacheKey, adapterKey := adapterKey,
                chatId := chatId, senderId := ctx.senderId, sessionId := sid,
                permissionID := none, permissionType := none, permissionTitle := none,
                permissionPattern := none,
                blockedReason :=
                  strOr permissionTitle (strOr (e.ptype.getD "") "需要网页侧授权"),
                source := "bridge.incoming", createdAt := σ.now,
                dueAt := σ.now + AUTH_TIMEOUT_MS }
            let σ2 := setPendingAuth σ1 cacheKey (some pending)
            let blockedHandle : AuthTimerHandle :=
              { cacheKey := cacheKey, sessionId := sid, permissionID := none,
                forBlockedSession := true }
            let σ3 := setAuthTimer σ2 cacheKey (some blockedHandle)
            sendMessage σ3 chatId (renderAuthorizationPrompt pending)
        else σ
    | some pid =>
      let skipAnd := shouldSkipDuplicatePermissionEvent "request" sid pid σ
      if skipAnd.1 then skipAnd.2
      else
        let σa := skipAnd.2
        match getCacheKeyBySession sid σa with
        | none => σa
        | some (cacheKey, adapterKey, chatId) =>
          if σa.adapters adapterKey then
            match σa.sessionToCtx sid with
            | none => σa
            | some ctx =>
              match σa.chatPendingAuthorization cacheKey with
              | some existingPending =>
                if existingPending.mode = .permissionRequest &&
                    existingPending.sessionId = sid then
                  setPendingAuth σa cacheKey
                    (some { existingPending with
                            permissionID := some pid
                            permissionType := e.ptype
                            permissionTitle := some permissionTitle
                            permissionPattern := e.pattern
                            blockedReason := permissionTitle })
                else
                  dedupeOrCreatePermissionPrompt sid pid e permissionTitle cacheKey
                    adapterKey chatId ctx σa
              | none =>
                dedupeOrCreatePermissionPrompt sid pid e permissionTitle cacheKey
                  adapterKey chatId ctx σa
          else σa

/-! ## Incoming flow: pending-question reply segment
(`src/handler/flow/incoming.ts:487-552`) -/

inductive IncomingReplyOutcome
  | bypassed
  | hintSent
  | invalidReplyContinue (reason : String)
  | validReply (answers : List (Option ResolvedQuestionAnswer))
deriving DecidableEq, Repr

/-- The pending-question segment of the incoming message handler. On an
unparsable non-slash reply the call is marked handled, the pending state and
its timer are destroyed, and the handler falls through
(`invalidReplyContinue`) so the same text is processed as a normal prompt.
The accepted-reply branch resumes the agent over the network
(`replyQuestionRequest` / `submitPrompt`), which is outside this model; its
outcome is recorded as `validReply`. -/
def handleIncomingPendingQuestion (adapterKey chatId : String) (slash : Bool)
    (text : String) (σ : BridgeState) : BridgeState × IncomingReplyOutcome :=
  let cacheKey := adapterKey ++ ":" ++ chatId
  match σ.chatPendingQuestion cacheKey with
  | none => (σ, .bypassed)
  | some pendingQuestion =>
    if slash then (σ, .bypassed)
    else if jsTrim text = "" then
      (sendMessage σ chatId (renderReplyHint pendingQuestion), .hintSent)
    else
      match parseUserReply text pendingQuestion with
      | .err reason =>
        let σ1 := markQuestionCallHandled σ cacheKey pendingQuestion.messageId
          pendingQuestion.callID
        let σ2 := clearPendingQuestionForChat σ1 cacheKey
        (σ2, .invalidReplyContinue reason)
      | .ok answers => (σ, .validReply answers)

/-! ## Event dispatcher routing (`src/handler/event/dispatch.ts`,
`src/handler/event/utils.ts`) -/

/-- Session-route fields extractable from `message.part.updated` metadata by
`hydrateSessionRouteFromMetadata` (dispatch.ts:146-183); `none` when the
metadata is not an object or lacks a chat id or adapter key. -/
structure MetadataRoute where
  chatId : String
  adapterKey : String
  senderId : Option String
deriving DecidableEq, Repr

/-- `hydrateSessionRouteFromMetadata`: fills only missing route entries. -/
def hydrateSessionRouteFromMetadata (sessionId : String) (md : Option MetadataRoute)
    (σ : BridgeState) : BridgeState × Bool :=
  match md with
  | none => (σ, false)
  | some h =>
    let σ1 :=
      if (σ.sessionToCtx sessionId).isNone then
        { σ with sessionToCtx := fun x =>
            if x = sessionId then
              some { chatId := h.chatId, senderId := h.senderId.getD "system" }
            else σ.sessionToCtx x }
      else σ
    let σ2 :=
      if (σ.sessionToAdapterKey sessionId).isNone then
        { σ1 with sessionToAdapterKey := fun x =>
            if x = sessionId then some h.adapterKey else σ1.sessionToAdapterKey x }
      else σ1
    (σ2, true)

/-- The incoming flow's route write on prompt submission
(incoming.ts:651-653 and 503-504): unconditional map sets. -/
def incomingRouteWrite (sessionId adapterKey chatId senderId : String)
    (σ : BridgeState) : BridgeState :=
  let σ1 := { σ with sessionToAdapterKey := fun x =>
      if x = sessionId then some adapterKey else σ.sessionToAdapterKey x }
  { σ1 with sessionToCtx := fun x =>
      if x = sessionId then some { chatId := chatId, senderId := senderId }
      else σ1.sessionToCtx x }

/-- The event types with a dedicated branch in `dispatchEventByType`
(dispatch.ts:607-689), in source order. -/
inductive HandledEvent
  | messageUpdated
  | messagePartUpdated
  | sessionError
  | sessionIdle
  | permissionUpdatedOrAsked
  | permissionReplied
  | commandExecuted
  | messageRemoved
  | messagePartRemoved
  | sessionStatus
  | questionAsked
  | questionReplied
  | questionRejected
deriving DecidableEq, Repr

/-- The `if (e.type === ...)` chain of `dispatchEventByType`. -/
def classifyEvent (t : String) : Option HandledEvent :=
  if t = "message.updated" then some .messageUpdated
  else if t = "message.part.updated" then some .messagePartUpdated
  else if t = "session.error" then some .sessionError
  else if t = "session.idle" then some .sessionIdle
  else if t = "permission.updated" || t = "permission.asked" then
    some .permissionUpdatedOrAsked
  else if t = "permission.replied" then some .permissionReplied
  else if t = "command.executed" then some .commandExecuted
  else if t = "message.removed" then some .messageRemoved
  else if t = "message.part.removed" then some .messagePartRemoved
  else if t = "session.status" then some .sessionStatus
  else if t = "question.asked" then some .questionAsked
  else if t = "question.replied" then some .questionReplied
  else if t = "question.rejected" then some .questionRejected
  else none

/-- `KNOWN_EVENT_TYPES` (event/utils.ts). -/
def KNOWN_EVENT_TYPES : List String :=
  ["server.instance.disposed", "installation.updated", "installation.update-available",
   "lsp.client.diagnostics", "lsp.updated", "message.updated", "message.removed",
   "message.part.updated", "message.part.removed", "permission.updated",
   "permission.replied", "session.status", "session.idle", "session.compacted",
   "file.edited", "todo.updated", "command.executed", "session.created",
   "session.updated", "session.deleted", "session.diff", "session.error",
   "file.watcher.updated", "vcs.branch.updated", "tui.prompt.append",
   "tui.command.execute", "tui.toast.show", "pty.created", "pty.updated",
   "pty.exited", "pty.deleted", "server.connected", "permission.asked",
   "question.asked", "question.replied", "question.rejected"]

inductive DispatchLog
  | handledEvent
  | debugUnhandled
  | warnUnknown
deriving DecidableEq, Repr

/-- `dispatchEventByType` over an abstract dependency state `α`: a matched
type runs its handler; a known-but-unhandled type logs at debug and returns;
an unknown type logs at warn and returns. The two log-only branches touch no
state (they only call `bridgeLogger`). -/
def dispatchEventByType {α : Type} (runHandler : HandledEvent → α → α) (t : String)
    (s : α) : α × DispatchLog :=
  match classifyEvent t with
  | some h => (runHandler h s, .handledEvent)
  | none =>
    if KNOWN_EVENT_TYPES.contains t then (s, .debugUnhandled)
    else (s, .warnUnknown)

/-! ## Concrete instances used by examples and witnesses -/

def plainOption (l : String) : NormalizedQuestionOption :=
  { label := l, description := none }

def continueStopQuestion : NormalizedQuestionItem :=
  { id := "q1", header := none, question := "Continue?",
    options := [plainOption "Continue (recommended)", plainOption "Stop"],
    freeText := false, multiple := false }

def continueStopState : PendingQuestionState :=
  { key := "tg:chat1", adapterKey := "tg", chatId := "chat1", sessionId := "s1",
    messageId := "m1", callID := "c1",
    payload := { questions := [continueStopQuestion] },
    createdAt := 0, dueAt := 0 }

def threeOptionQuestion : NormalizedQuestionItem :=
  { id := "q1", header := none, question := "Pick one",
    options := [plainOption "A", plainOption "B", plainOption "C"],
    freeText := false, multiple := false }

def freeTextQuestion : NormalizedQuestionItem :=
  { id := "q2", header := none, question := "Say something", options := [],
    freeText := true, multiple := false }

def twoQuestionState : PendingQuestionState :=
  { key := "tg:chat1", adapterKey := "tg", chatId := "chat1", sessionId := "s1",
    messageId := "m1", callID := "c1",
    payload := { questions := [threeOptionQuestion, freeTextQuestion] },
    createdAt := 0, dueAt := 0 }

/-- A carried execution buffer that has accumulated 150 characters of answer
text (the spec's carry/split scenario). -/
def carriedAnswerBuffer : MessageBuffer :=
  { emptyBuffer with
    text := String.mk (List.replicate 150 'a')
    tools := [("call1", "bash")]
    platformMsgId := some "pm1"
    executionCarried := true }

/-- The pending record built by the `permission_request` create-and-prompt
path, as a function of the event fields (title defaulting per the handler). -/
def permissionRequestPending (sid p : String) (ty ti : Option String)
    (pat : Option PatternValue) (ak chatId senderId : String) (now : Nat) :
    PendingAuthorizationState :=
  { mode := .permissionRequest, key := ak ++ ":" ++ chatId, adapterKey := ak,
    chatId := chatId, senderId := senderId, sessionId := sid,
    permissionID := some p, permissionType := ty,
    permissionTitle := some (strOr (ti.getD "") (strOr (ty.getD "") "权限请求")),
    permissionPattern := pat,
    blockedReason := strOr (ti.getD "") (strOr (ty.getD "") "权限请求"),
    source := "bridge.incoming", createdAt := now, dueAt := now + AUTH_TIMEOUT_MS }

/-- A bridge state with empty maps (listener freshly started). -/
def emptyBridgeState : BridgeState :=
  { sessionToCtx := fun _ => none, sessionToAdapterKey := fun _ => none,
    adapters := fun _ => false, chatPendingQuestion := fun _ => none,
    pendingQuestionTimers := fun _ => none, handledQuestionCalls := fun _ => [],
    chatPendingAuthorization := fun _ => none,
    pendingAuthorizationTimers := fun _ => none,
    recentPermissionEventAt := fun _ => none,
    recentPermissionPromptBySession := fun _ => none,
    outbox := [], now := 0 }

/-- A bridge state with one routed session ("s1" → telegram chat "chat1"). -/
def routedBridgeState : BridgeState :=
  { emptyBridgeState with
    sessionToCtx := fun x =>
      if x = "s1" then some { chatId := "chat1", senderId := "u1" } else none
    sessionToAdapterKey := fun x => if x = "s1" then some "tg" else none
    adapters := fun k => k = "tg" }

/-- `routedBridgeState` with the continue/stop question pending (armed). -/
def pendingQuestionBridgeState : BridgeState :=
  { routedBridgeState with
    chatPendingQuestion := fun x =>
      if x = "tg:chat1" then some continueStopState else none
    pendingQuestionTimers := fun x =>
      if x = "tg:chat1" then
        some { cacheKey := "tg:chat1", callID := "c1", messageId := "m1" }
      else none }

/-! ## Theorems -/

theorem optStrTruthy_eq_true_iff (o : Option String) :
    optStrTruthy o = true ↔ ∃ v, o = some v ∧ v ≠ "" := by
  cases o <;> simp [optStrTruthy]

theorem hasSubstantiveAnswerText_eq_false_iff (b : MessageBuffer) :
    hasSubstantiveAnswerText b = false ↔ (jsTrim b.text).length ≤ 1 := by
  simp [hasSubstantiveAnswerText, Nat.not_lt]

theorem hasExecutionLikeContent_eq_true_iff (b : MessageBuffer) :
    hasExecutionLikeContent b = true ↔ (b.tools ≠ [] ∨ jsTrim b.reasoning ≠ "") := by
  simp [hasExecutionLikeContent, List.isEmpty_iff]

/-- C2: `shouldCarryPlatformMessageAcrossAssistantMessages(prevBuffer)` is true
exactly when the buffer holds a (non-empty) platform message id, its status is
neither error nor aborted, and either it is in the tool-call phase, or it has
execution-like content (non-empty tool map or non-blank reasoning) while its
trimmed answer text is not substantive (length ≤ 1); false otherwise. -/
theorem carry_decision_iff_spec (b : MessageBuffer) :
    shouldCarryPlatformMessageAcrossAssistantMessages b = true ↔
      ((∃ v, b.platformMsgId = some v ∧ v ≠ "") ∧
        b.status ≠ .error ∧ b.status ≠ .aborted ∧
        (isToolCallPhase b = true ∨
          ((b.tools ≠ [] ∨ jsTrim b.reasoning ≠ "") ∧ (jsTrim b.text).length ≤ 1))) := by
  rw [← optStrTruthy_eq_true_iff b.platformMsgId,
    ← hasExecutionLikeContent_eq_true_iff b, ← hasSubstantiveAnswerText_eq_false_iff b]
  unfold shouldCarryPlatformMessageAcrossAssistantMessages
  cases h1 : optStrTruthy b.platformMsgId
  · simp [h1]
  · by_cases h3 : b.status = BufferStatus.error
    · simp [h1, h3]
    · by_cases h4 : b.status = BufferStatus.aborted
      · simp [h1, h3, h4]
      · cases h2 : isToolCallPhase b
        · cases h5 : hasExecutionLikeContent b
          · simp [h1, h2, h3, h4, h5]
          · cases h6 : hasSubstantiveAnswerText b <;> simp [h1, h2, h3, h4, h5, h6]
        · simp [h1, h2, h3, h4]

/-- C3: for a carried buffer still holding a platform message id,
`shouldSplitOutFinalAnswer` is true exactly when it is not in the tool-call
phase and its trimmed answer text has at least 120 characters
(`EXECUTION_TO_ANSWER_SPLIT_MIN_TEXT`); `splitFinalAnswerFromExecution`
clears the platform message id, the tool map and the reasoning; and
`buildFinalizedExecutionContent` renders the execution view, whose answer
text is empty. -/
theorem split_decision_and_effects (b : MessageBuffer) (render : MessageBuffer → String) :
    (b.executionCarried = true → optStrTruthy b.platformMsgId = true →
      (shouldSplitOutFinalAnswer b = true ↔
        (isToolCallPhase b = false ∧ 120 ≤ (jsTrim b.text).length))) ∧
    EXECUTION_TO_ANSWER_SPLIT_MIN_TEXT = 120 ∧
    (splitFinalAnswerFromExecution b).platformMsgId = none ∧
    (splitFinalAnswerFromExecution b).tools = [] ∧
    (splitFinalAnswerFromExecution b).reasoning = "" ∧
    buildFinalizedExecutionContent render b = render (finalizedExecutionView b) ∧
    (finalizedExecutionView b).text = "" := by
  refine ⟨?_, rfl, rfl, rfl, rfl, rfl, rfl⟩
  intro hc hp
  unfold shouldSplitOutFinalAnswer
  rw [hc, hp]
  cases h2 : isToolCallPhase b <;>
    simp [h2, EXECUTION_TO_ANSWER_SPLIT_MIN_TEXT]

set_option maxRecDepth 4000 in
/-- Witness for C3 at the spec's scenario: a carried buffer with 150
characters of answer text and no tool-call-phase note splits, and the split
clears its platform id. -/
theorem split_decision_and_effects_witness :
    carriedAnswerBuffer.executionCarried = true ∧
    optStrTruthy carriedAnswerBuffer.platformMsgId = true ∧
    shouldSplitOutFinalAnswer carriedAnswerBuffer = true ∧
    (splitFinalAnswerFromExecution carriedAnswerBuffer).platformMsgId = none := by
  refine ⟨rfl, by decide, ?_, ?_⟩
  · exact ((split_decision_and_effects carriedAnswerBuffer (fun _ => "")).1 rfl
      (by decide)).mpr ⟨by decide, by decide⟩
  · exact (split_decision_and_effects carriedAnswerBuffer (fun _ => "")).2.2.1

/-- C4: against the single pending question with options
`["Continue (recommended)", "Stop"]` and free text disallowed, reply "1"
resolves to index 0, reply "stop" resolves to index 1, and reply "3" is
rejected as unmatched. -/
theorem question_reply_matching_examples :
    parseUserReply "1" continueStopState =
      .ok [some { questionId := "q1", questionIndex := 0, selectedIndex := 0,
                  selectedLabel := "Continue (recommended)", raw := "1" }] ∧
    parseUserReply "stop" continueStopState =
      .ok [some { questionId := "q1", questionIndex := 0, selectedIndex := 1,
                  selectedLabel := "Stop", raw := "stop" }] ∧
    continueStopQuestion.freeText = false ∧
    parseUserReply "3" continueStopState = .err "unmatched-single" := by
  refine ⟨by decide, by decide, rfl, by decide⟩

theorem setBuf_same (s : BufStore) (id : String) (b : MessageBuffer) :
    setBuf s id b id = b := by
  simp [setBuf]

theorem setBuf_other (s : BufStore) (id : String) (b : MessageBuffer) (x : String)
    (h : x ≠ id) : setBuf s id b x = s x := by
  simp [setBuf, h]

theorem carryInto_platformMsgId (a b : MessageBuffer) :
    (carryInto a b).platformMsgId = b.platformMsgId := rfl

theorem carry_donor_platformMsgId (s : BufStore) (p n : String) :
    ((carryPlatformMessage s p n) p).platformMsgId = none := by
  unfold carryPlatformMessage
  rw [setBuf_same]

theorem carry_nondonor (s : BufStore) (p n x : String) (hx : x ≠ p) :
    carryPlatformMessage s p n x =
      if x = n then carryInto (s n) (s p) else s x := by
  unfold carryPlatformMessage
  rw [setBuf_other _ _ _ _ hx]
  by_cases hn : x = n
  · subst hn; rw [setBuf_same]; simp
  · rw [setBuf_other _ _ _ _ hn]; simp [hn]

theorem carry_preserves_ownership (s : BufStore) (p n : String)
    (h : uniquePlatformOwnership s) :
    uniquePlatformOwnership (carryPlatformMessage s p n) := by
  intro m1 m2 v h1 h2
  by_cases e1 : m1 = p
  · subst e1
    rw [carry_donor_platformMsgId] at h1
    exact absurd h1 (by simp)
  · by_cases e2 : m2 = p
    · subst e2
      rw [carry_donor_platformMsgId] at h2
      exact absurd h2 (by simp)
    · rw [carry_nondonor s p n m1 e1] at h1
      rw [carry_nondonor s p n m2 e2] at h2
      by_cases f1 : m1 = n <;> by_cases f2 : m2 = n
      · rw [f1, f2]
      · rw [if_pos f1, carryInto_platformMsgId] at h1
        rw [if_neg f2] at h2
        exact absurd (h p m2 v h1 h2).symm e2
      · rw [if_neg f1] at h1
        rw [if_pos f2, carryInto_platformMsgId] at h2
        exact absurd (h m1 p v h1 h2) e1
      · rw [if_neg f1] at h1
        rw [if_neg f2] at h2
        exact h m1 m2 v h1 h2

theorem split_preserves_ownership (s : BufStore) (id : String)
    (h : uniquePlatformOwnership s) :
    uniquePlatformOwnership (splitStore s id) := by
  intro m1 m2 v h1 h2
  unfold splitStore at h1 h2
  by_cases e1 : m1 = id
  · subst e1
    rw [setBuf_same] at h1
    exact absurd h1 (by simp [splitFinalAnswerFromExecution])
  · by_cases e2 : m2 = id
    · subst e2
      rw [setBuf_same] at h2
      exact absurd h2 (by simp [splitFinalAnswerFromExecution])
    · rw [setBuf_other _ _ _ _ e1] at h1
      rw [setBuf_other _ _ _ _ e2] at h2
      exact h m1 m2 v h1 h2

/-- C1: across any sequence of `carryPlatformMessage` and
`splitFinalAnswerFromExecution` operations, at most one buffer holds a given
non-null `platformMsgId` at any time — carry transfers the id to the receiver
and nulls the donor's, split nulls the buffer's own. -/
theorem platform_msgid_ownership_unique (ops : List CarrySplitOp) (s0 : BufStore)
    (h : uniquePlatformOwnership s0) :
    uniquePlatformOwnership (applyCarrySplitOps s0 ops) := by
  induction ops generalizing s0 with
  | nil => exact h
  | cons op rest ih =>
    cases op with
    | carry p n => exact ih _ (carry_preserves_ownership s0 p n h)
    | split id => exact ih _ (split_preserves_ownership s0 id h)

/-- Witness for C1: a store where one buffer owns "pm1", run through a carry
to a new message and a split of that message. -/
theorem platform_msgid_ownership_unique_witness :
    uniquePlatformOwnership
      (applyCarrySplitOps (setBuf (fun _ => emptyBuffer) "a" carriedAnswerBuffer)
        [.carry "a" "b", .split "b"]) := by
  apply platform_msgid_ownership_unique
  intro m1 m2 v h1 h2
  by_cases e1 : m1 = "a" <;> by_cases e2 : m2 = "a" <;>
    simp_all [setBuf, emptyBuffer]

/-- Counterexample to C8 as stated: the incoming flow writes the route for
session "s" first; metadata hydration then runs second with a different route
and reports success, yet the resulting route is still the incoming flow's —
the second writer does not determine the route. -/
theorem route_last_writer_wins_counterexample :
    (hydrateSessionRouteFromMetadata "s"
        (some { chatId := "c2", adapterKey := "a2", senderId := some "u2" })
        (incomingRouteWrite "s" "a1" "c1" "u1" emptyBridgeState)).2 = true ∧
    (hydrateSessionRouteFromMetadata "s"
        (some { chatId := "c2", adapterKey := "a2", senderId := some "u2" })
        (incomingRouteWrite "s" "a1" "c1" "u1" emptyBridgeState)).1.sessionToCtx "s" =
      some { chatId := "c1", senderId := "u1" } ∧
    (hydrateSessionRouteFromMetadata "s"
        (some { chatId := "c2", adapterKey := "a2", senderId := some "u2" })
        (incomingRouteWrite "s" "a1" "c1" "u1" emptyBridgeState)).1.sessionToAdapterKey "s" =
      some "a1" ∧
    ("a1" : String) ≠ "a2" := by
  refine ⟨rfl, rfl, rfl, by decide⟩

/-- C8 (amended): a session id resolves to at most one route at a time (the
routing tables are maps keyed by session id). When both the incoming flow and
event-metadata hydration write a route for the same session id, the incoming
flow's values win regardless of order: its write unconditionally overwrites,
while `hydrateSessionRouteFromMetadata` only fills entries that are still
missing and never overwrites an existing route. -/
theorem route_write_semantics (σ : BridgeState)
    (sid adapterKey chatId senderId : String) (md : Option MetadataRoute) :
    ((hydrateSessionRouteFromMetadata sid md
        (incomingRouteWrite sid adapterKey chatId senderId σ)).1.sessionToCtx sid =
      some { chatId := chatId, senderId := senderId } ∧
     (hydrateSessionRouteFromMetadata sid md
        (incomingRouteWrite sid adapterKey chatId senderId σ)).1.sessionToAdapterKey sid =
      some adapterKey) ∧
    ((incomingRouteWrite sid adapterKey chatId senderId
        (hydrateSessionRouteFromMetadata sid md σ).1).sessionToCtx sid =
      some { chatId := chatId, senderId := senderId } ∧
     (incomingRouteWrite sid adapterKey chatId senderId
        (hydrateSessionRouteFromMetadata sid md σ).1).sessionToAdapterKey sid =
      some adapterKey) := by
  cases md <;>
    simp [hydrateSessionRouteFromMetadata, incomingRouteWrite]

/-- C9: an event whose type has no dedicated dispatch branch leaves the
dependency state untouched and never throws (the embedding is a total
function): it is logged at debug level when the type is catalogued in
`KNOWN_EVENT_TYPES` and at warn level when fully unrecognized. -/
theorem unknown_event_dispatch_safe {α : Type} (runHandler : HandledEvent → α → α)
    (t : String) (s : α) (h : classifyEvent t = none) :
    (dispatchEventByType runHandler t s).1 = s ∧
    ((dispatchEventByType runHandler t s).2 = .debugUnhandled ↔
      KNOWN_EVENT_TYPES.contains t = true) ∧
    ((dispatchEventByType runHandler t s).2 = .warnUnknown ↔
      KNOWN_EVENT_TYPES.contains t = false) := by
  unfold dispatchEventByType
  rw [h]
  cases hk : KNOWN_EVENT_TYPES.contains t <;> simp [hk]

/-- Witness for C9: `session.compacted` is known but unhandled (debug),
`evt.unknown.xyz` is unrecognized (warn); neither touches the state. -/
theorem unknown_event_dispatch_safe_witness :
    classifyEvent "session.compacted" = none ∧
    (dispatchEventByType (fun _ (n : Nat) => n + 1) "session.compacted" 0).1 = 0 ∧
    (dispatchEventByType (fun _ (n : Nat) => n + 1) "session.compacted" 0).2 =
      .debugUnhandled ∧
    (dispatchEventByType (fun _ (n : Nat) => n + 1) "evt.unknown.xyz" 0).2 =
      .warnUnknown := by
  refine ⟨rfl, (unknown_event_dispatch_safe (fun _ (n : Nat) => n + 1)
    "session.compacted" 0 (by decide)).1, ?_, ?_⟩
  · exact (unknown_event_dispatch_safe (fun _ (n : Nat) => n + 1) "session.compacted" 0
      (by decide)).2.1.mpr (by decide)
  · exact (unknown_event_dispatch_safe (fun _ (n : Nat) => n + 1) "evt.unknown.xyz" 0
      (by decide)).2.2.mpr (by decide)

/-- C5: the claim is right about the intended behaviour but the code is
wrong. The multi-question branch of `parseUserReply` builds the answers as a
sparse `new Array(questions.length)` and gates the ok return with
`answers.every(Boolean)`; ECMAScript `every` skips holes, so the gate is
vacuously true and the reply "Q1:2" against two questions is accepted with
question 2 unanswered — even "hello" is accepted with no question answered —
while the positional pass and the `incomplete-multi` rejection are
unreachable (`jsSparseEveryTruthy` is constantly true). The claim's positive
example "Q1:2,Q2:my answer" does resolve both answers. -/
theorem reply_partial_acceptance_bug :
    parseUserReply "Q1:2" twoQuestionState =
      .ok [some { questionId := "q1", questionIndex := 0, selectedIndex := 1,
                  selectedLabel := "B", raw := "Q1:2" }, none] ∧
    parseUserReply "hello" twoQuestionState = .ok [none, none] ∧
    parseUserReply "Q1:2,Q2:my answer" twoQuestionState =
      .ok [some { questionId := "q1", questionIndex := 0, selectedIndex := 1,
                  selectedLabel := "B", raw := "Q1:2" },
           some { questionId := "q2", questionIndex := 1, selectedIndex := -1,
                  selectedLabel := "my answer", raw := "Q2:my answer" }] ∧
    (∀ slots : List (Option ResolvedQuestionAnswer),
      jsSparseEveryTruthy slots = true) := by
  refine ⟨by decide, by decide, by decide, ?_⟩
  intro slots
  induction slots with
  | nil => rfl
  | cons o rest ih =>
    cases o <;> simpa [jsSparseEveryTruthy] using ih

theorem upd_same {β : Type} (m : String → Option β) (k : String) (v : Option β) :
    upd m k v k = v := by
  simp [upd]

theorem upd_other {β : Type} (m : String → Option β) (k : String) (v : Option β)
    (x : String) (h : x ≠ k) : upd m k v x = m x := by
  simp [upd, h]

theorem pushHandledToken_keeps_token (set0 : List String) (token : String)
    (h : set0.length < 200) :
    (pushHandledToken set0 token).contains token = true := by
  unfold pushHandledToken
  by_cases hmem : set0.contains token
  · rw [if_pos hmem, if_neg (by omega)]
    exact hmem
  · rw [if_neg hmem, if_neg (by simp [List.length_append]; omega)]
    simp [List.contains, List.elem_eq_mem, List.mem_append]

theorem mark_makes_handled (σ : BridgeState) (cacheKey mid cid : String)
    (hroom : (σ.handledQuestionCalls cacheKey).length < 200) :
    isQuestionCallHandled (markQuestionCallHandled σ cacheKey mid cid) cacheKey mid cid
      = true := by
  have hlook : (markQuestionCallHandled σ cacheKey mid cid).handledQuestionCalls cacheKey
      = pushHandledToken (σ.handledQuestionCalls cacheKey) (questionCallToken mid cid) := by
    simp [markQuestionCallHandled]
  unfold isQuestionCallHandled
  rw [hlook]
  exact pushHandledToken_keeps_token _ _ hroom

theorem fire_noop_of_no_pending (h : QuestionTimerHandle) (σ : BridgeState)
    (hnone : σ.chatPendingQuestion h.cacheKey = none) :
    fireQuestionTimer h σ = σ := by
  unfold fireQuestionTimer
  rw [hnone]

theorem fire_noop_of_superseded (h : QuestionTimerHandle) (σ : BridgeState)
    (cur : PendingQuestionState)
    (hcur : σ.chatPendingQuestion h.cacheKey = some cur)
    (hdiff : cur.callID ≠ h.callID ∨ cur.messageId ≠ h.messageId) :
    fireQuestionTimer h σ = σ := by
  unfold fireQuestionTimer
  rw [hcur]
  simp only
  rw [if_neg (by
    intro hc
    rcases hdiff with hd | hd
    · exact hd (by simpa using (Bool.and_eq_true _ _ |>.mp hc).1)
    · exact hd (by simpa using (Bool.and_eq_true _ _ |>.mp hc).2))]

theorem arm_characterization
    (σ0 : BridgeState) (sid mid cid : String) (payload : NormalizedQuestionPayload)
    (ctx : SessionContext) (ak : String)
    (hctx : σ0.sessionToCtx sid = some ctx)
    (hak : σ0.sessionToAdapterKey sid = some ak)
    (hnothandled : isQuestionCallHandled σ0 (ak ++ ":" ++ ctx.chatId) mid cid = false)
    (hnopending : σ0.chatPendingQuestion (ak ++ ":" ++ ctx.chatId) = none)
    (hadapter : σ0.adapters ak = true) :
    armPendingQuestionPrompt sid mid cid payload σ0 =
      (setQuestionTimer
        (sendMessage
          (setPendingQuestion
            (clearPendingQuestionForChat σ0 (ak ++ ":" ++ ctx.chatId))
            (ak ++ ":" ++ ctx.chatId)
            (some { key := ak ++ ":" ++ ctx.chatId, adapterKey := ak,
                    chatId := ctx.chatId, sessionId := sid, messageId := mid,
                    callID := cid, payload := payload, createdAt := σ0.now,
                    dueAt := σ0.now + QUESTION_TIMEOUT_MS }))
          ctx.chatId
          (renderQuestionPrompt
            { key := ak ++ ":" ++ ctx.chatId, adapterKey := ak,
              chatId := ctx.chatId, sessionId := sid, messageId := mid,
              callID := cid, payload := payload, createdAt := σ0.now,
              dueAt := σ0.now + QUESTION_TIMEOUT_MS }))
        (ak ++ ":" ++ ctx.chatId)
        (some { cacheKey := ak ++ ":" ++ ctx.chatId, callID := cid,
                messageId := mid }), true) := by
  unfold armPendingQuestionPrompt
  simp only [getCacheKeyBySession, hctx, hak, hnothandled, hnopending, hadapter,
    Bool.false_eq_true, if_false, if_true]

theorem fire_characterization (σ : BridgeState) (h : QuestionTimerHandle)
    (pend : PendingQuestionState)
    (hpend : σ.chatPendingQuestion h.cacheKey = some pend)
    (hcall : pend.callID = h.callID) (hmsg : pend.messageId = h.messageId)
    (hadapt : σ.adapters pend.adapterKey = true) :
    fireQuestionTimer h σ =
      sendMessage
        (clearPendingQuestionForChat
          (markQuestionCallHandled σ h.cacheKey h.messageId h.callID) h.cacheKey)
        pend.chatId questionTimeoutMessage := by
  unfold fireQuestionTimer
  rw [hpend]
  simp only [hcall, hmsg, hadapt, decide_True, Bool.and_self, if_true]

/-- C6: arming a pending question stamps `dueAt` 15 minutes
(`QUESTION_TIMEOUT_MS`) after `createdAt` and registers the timeout timer; a
timer firing while the same pending question (same callID and messageId) is
still armed marks the call handled, clears the pending state together with
its timer handle, and sends exactly one cancellation message to the chat; a
timer firing after the pending question was cleared or superseded does
nothing. -/
theorem question_timeout_protocol
    (σ0 : BridgeState) (sid mid cid : String) (payload : NormalizedQuestionPayload)
    (ctx : SessionContext) (ak : String)
    (hctx : σ0.sessionToCtx sid = some ctx)
    (hak : σ0.sessionToAdapterKey sid = some ak)
    (hnothandled : isQuestionCallHandled σ0 (ak ++ ":" ++ ctx.chatId) mid cid = false)
    (hnopending : σ0.chatPendingQuestion (ak ++ ":" ++ ctx.chatId) = none)
    (hadapter : σ0.adapters ak = true)
    (hroom : (σ0.handledQuestionCalls (ak ++ ":" ++ ctx.chatId)).length < 200) :
    (armPendingQuestionPrompt sid mid cid payload σ0).2 = true ∧
    (armPendingQuestionPrompt sid mid cid payload σ0).1.chatPendingQuestion
        (ak ++ ":" ++ ctx.chatId) =
      some { key := ak ++ ":" ++ ctx.chatId, adapterKey := ak, chatId := ctx.chatId,
             sessionId := sid, messageId := mid, callID := cid, payload := payload,
             createdAt := σ0.now, dueAt := σ0.now + QUESTION_TIMEOUT_MS } ∧
    QUESTION_TIMEOUT_MS = 15 * 60 * 1000 ∧
    (armPendingQuestionPrompt sid mid cid payload σ0).1.pendingQuestionTimers
        (ak ++ ":" ++ ctx.chatId) =
      some { cacheKey := ak ++ ":" ++ ctx.chatId, callID := cid, messageId := mid } ∧
    (fireQuestionTimer
        { cacheKey := ak ++ ":" ++ ctx.chatId, callID := cid, messageId := mid }
        (armPendingQuestionPrompt sid mid cid payload σ0).1).chatPendingQuestion
        (ak ++ ":" ++ ctx.chatId) = none ∧
    (fireQuestionTimer
        { cacheKey := ak ++ ":" ++ ctx.chatId, callID := cid, messageId := mid }
        (armPendingQuestionPrompt sid mid cid payload σ0).1).pendingQuestionTimers
        (ak ++ ":" ++ ctx.chatId) = none ∧
    isQuestionCallHandled
      (fireQuestionTimer
        { cacheKey := ak ++ ":" ++ ctx.chatId, callID := cid, messageId := mid }
        (armPendingQuestionPrompt sid mid cid payload σ0).1)
      (ak ++ ":" ++ ctx.chatId) mid cid = true ∧
    (fireQuestionTimer
        { cacheKey := ak ++ ":" ++ ctx.chatId, callID := cid, messageId := mid }
        (armPendingQuestionPrompt sid mid cid payload σ0).1).outbox =
      (ctx.chatId, questionTimeoutMessage) ::
        (armPendingQuestionPrompt sid mid cid payload σ0).1.outbox ∧
    (∀ (h : QuestionTimerHandle) (σ : BridgeState),
      σ.chatPendingQuestion h.cacheKey = none → fireQuestionTimer h σ = σ) ∧
    (∀ (h : QuestionTimerHandle) (σ : BridgeState) (cur : PendingQuestionState),
      σ.chatPendingQuestion h.cacheKey = some cur →
      cur.callID ≠ h.callID ∨ cur.messageId ≠ h.messageId →
      fireQuestionTimer h σ = σ) := by
  have harm := arm_characterization σ0 sid mid cid payload ctx ak hctx hak
    hnothandled hnopending hadapter
  have hpendArm : (armPendingQuestionPrompt sid mid cid payload σ0).1.chatPendingQuestion
      (ak ++ ":" ++ ctx.chatId) =
      some { key := ak ++ ":" ++ ctx.chatId, adapterKey := ak, chatId := ctx.chatId,
             sessionId := sid, messageId := mid, callID := cid, payload := payload,
             createdAt := σ0.now, dueAt := σ0.now + QUESTION_TIMEOUT_MS } := by
    rw [harm]
    simp [setQuestionTimer, sendMessage, setPendingQuestion,
      clearPendingQuestionForChat, upd]
  have hfire := fire_characterization
    (armPendingQuestionPrompt sid mid cid payload σ0).1
    { cacheKey := ak ++ ":" ++ ctx.chatId, callID := cid, messageId := mid }
    { key := ak ++ ":" ++ ctx.chatId, adapterKey := ak, chatId := ctx.chatId,
      sessionId := sid, messageId := mid, callID := cid, payload := payload,
      createdAt := σ0.now, dueAt := σ0.now + QUESTION_TIMEOUT_MS }
    hpendArm rfl rfl
    (by rw [harm]
        simpa [setQuestionTimer, sendMessage, setPendingQuestion,
          clearPendingQuestionForChat, upd] using hadapter)
  refine ⟨by rw [harm], hpendArm, rfl, ?_, ?_, ?_, ?_, ?_,
    fire_noop_of_no_pending, fun h σ cur hcur hdiff =>
      fire_noop_of_superseded h σ cur hcur hdiff⟩
  · rw [harm]
    simp [setQuestionTimer, sendMessage, setPendingQuestion,
      clearPendingQuestionForChat, upd]
  · rw [hfire]
    simp [sendMessage, clearPendingQuestionForChat, setPendingQuestion,
      setQuestionTimer, markQuestionCallHandled, upd]
  · rw [hfire]
    simp [sendMessage, clearPendingQuestionForChat, setPendingQuestion,
      setQuestionTimer, markQuestionCallHandled, upd]
  · rw [hfire]
    have heq : isQuestionCallHandled
        (sendMessage
          (clearPendingQuestionForChat
            (markQuestionCallHandled (armPendingQuestionPrompt sid mid cid payload σ0).1
              (ak ++ ":" ++ ctx.chatId) mid cid) (ak ++ ":" ++ ctx.chatId))
          ctx.chatId questionTimeoutMessage)
        (ak ++ ":" ++ ctx.chatId) mid cid =
        isQuestionCallHandled
          (markQuestionCallHandled (armPendingQuestionPrompt sid mid cid payload σ0).1
            (ak ++ ":" ++ ctx.chatId) mid cid)
        (ak ++ ":" ++ ctx.chatId) mid cid := by
      simp [isQuestionCallHandled, sendMessage, clearPendingQuestionForChat,
        setPendingQuestion, setQuestionTimer, upd]
    rw [heq]
    apply mark_makes_handled
    rw [harm]
    simpa [setQuestionTimer, sendMessage, setPendingQuestion,
      clearPendingQuestionForChat, upd] using hroom
  · rw [hfire]
    simp [sendMessage, clearPendingQuestionForChat, markQuestionCallHandled,
      setPendingQuestion, setQuestionTimer, upd]

/-- Witness for C6: the concrete routed state arms a free-text question and
the timeout fires against it. -/
theorem question_timeout_protocol_witness :
    (armPendingQuestionPrompt "s1" "m1" "c1" { questions := [freeTextQuestion] }
      routedBridgeState).2 = true ∧
    (armPendingQuestionPrompt "s1" "m1" "c1" { questions := [freeTextQuestion] }
        routedBridgeState).1.pendingQuestionTimers "tg:chat1" =
      some { cacheKey := "tg:chat1", callID := "c1", messageId := "m1" } ∧
    (fireQuestionTimer { cacheKey := "tg:chat1", callID := "c1", messageId := "m1" }
        (armPendingQuestionPrompt "s1" "m1" "c1" { questions := [freeTextQuestion] }
          routedBridgeState).1).chatPendingQuestion "tg:chat1" = none ∧
    isQuestionCallHandled
      (fireQuestionTimer { cacheKey := "tg:chat1", callID := "c1", messageId := "m1" }
        (armPendingQuestionPrompt "s1" "m1" "c1" { questions := [freeTextQuestion] }
          routedBridgeState).1) "tg:chat1" "m1" "c1" = true := by
  have h := question_timeout_protocol routedBridgeState "s1" "m1" "c1"
    { questions := [freeTextQuestion] } { chatId := "chat1", senderId := "u1" } "tg"
    (by decide) (by decide) (by decide) (by decide) (by decide) (by decide)
  exact ⟨h.1, h.2.2.2.1, h.2.2.2.2.1, h.2.2.2.2.2.2.1⟩

theorem incoming_invalid_characterization (σ : BridgeState)
    (adapterKey chatId text reason : String) (pq : PendingQuestionState)
    (hpq : σ.chatPendingQuestion (adapterKey ++ ":" ++ chatId) = some pq)
    (htext : ¬jsTrim text = "")
    (hparse : parseUserReply text pq = .err reason) :
    handleIncomingPendingQuestion adapterKey chatId false text σ =
      (clearPendingQuestionForChat
        (markQuestionCallHandled σ (adapterKey ++ ":" ++ chatId) pq.messageId pq.callID)
        (adapterKey ++ ":" ++ chatId), .invalidReplyContinue reason) := by
  unfold handleIncomingPendingQuestion
  simp only [hpq, hparse, if_neg htext, Bool.false_eq_true, if_false]

/-- C10: when a chat has a pending question and the user's non-slash,
non-empty reply fails to parse, the incoming handler marks the question call
handled, clears the pending question state together with its timer, sends
nothing (no re-prompt), and falls through to process the same text as a
normal prompt (`invalidReplyContinue`); the destroyed pending question can no
longer be answered. -/
theorem invalid_reply_destroys_pending (σ : BridgeState)
    (adapterKey chatId text reason : String) (pq : PendingQuestionState)
    (hpq : σ.chatPendingQuestion (adapterKey ++ ":" ++ chatId) = some pq)
    (htext : ¬jsTrim text = "")
    (hparse : parseUserReply text pq = .err reason)
    (hroom : (σ.handledQuestionCalls (adapterKey ++ ":" ++ chatId)).length < 200) :
    (handleIncomingPendingQuestion adapterKey chatId false text σ).2 =
      .invalidReplyContinue reason ∧
    (handleIncomingPendingQuestion adapterKey chatId false text σ).1.chatPendingQuestion
      (adapterKey ++ ":" ++ chatId) = none ∧
    (handleIncomingPendingQuestion adapterKey chatId false text σ).1.pendingQuestionTimers
      (adapterKey ++ ":" ++ chatId) = none ∧
    isQuestionCallHandled
      (handleIncomingPendingQuestion adapterKey chatId false text σ).1
      (adapterKey ++ ":" ++ chatId) pq.messageId pq.callID = true ∧
    (handleIncomingPendingQuestion adapterKey chatId false text σ).1.outbox = σ.outbox := by
  have hchar := incoming_invalid_characterization σ adapterKey chatId text reason pq
    hpq htext hparse
  rw [hchar]
  refine ⟨rfl, ?_, ?_, ?_, ?_⟩
  · simp [clearPendingQuestionForChat, setPendingQuestion, setQuestionTimer, upd]
  · simp [clearPendingQuestionForChat, setPendingQuestion, setQuestionTimer, upd]
  · have heq : isQuestionCallHandled
        (clearPendingQuestionForChat
          (markQuestionCallHandled σ (adapterKey ++ ":" ++ chatId) pq.messageId pq.callID)
          (adapterKey ++ ":" ++ chatId))
        (adapterKey ++ ":" ++ chatId) pq.messageId pq.callID =
        isQuestionCallHandled
          (markQuestionCallHandled σ (adapterKey ++ ":" ++ chatId) pq.messageId pq.callID)
          (adapterKey ++ ":" ++ chatId) pq.messageId pq.callID := by
      simp [isQuestionCallHandled, clearPendingQuestionForChat, setPendingQuestion,
        setQuestionTimer, upd]
    rw [heq]
    exact mark_makes_handled _ _ _ _ hroom
  · simp [clearPendingQuestionForChat, setPendingQuestion, setQuestionTimer,
      markQuestionCallHandled, upd]

/-- Witness for C10: reply "3" against the armed continue/stop question is
unmatched; the pending state and timer are destroyed, the call marked
handled, and nothing is sent. -/
theorem invalid_reply_destroys_pending_witness :
    (handleIncomingPendingQuestion "tg" "chat1" false "3"
      pendingQuestionBridgeState).2 = .invalidReplyContinue "unmatched-single" ∧
    (handleIncomingPendingQuestion "tg" "chat1" false "3"
      pendingQuestionBridgeState).1.chatPendingQuestion "tg:chat1" = none ∧
    (handleIncomingPendingQuestion "tg" "chat1" false "3"
      pendingQuestionBridgeState).1.pendingQuestionTimers "tg:chat1" = none ∧
    isQuestionCallHandled
      (handleIncomingPendingQuestion "tg" "chat1" false "3"
        pendingQuestionBridgeState).1 "tg:chat1" "m1" "c1" = true ∧
    (handleIncomingPendingQuestion "tg" "chat1" false "3"
      pendingQuestionBridgeState).1.outbox = pendingQuestionBridgeState.outbox := by
  have h := invalid_reply_destroys_pending pendingQuestionBridgeState "tg" "chat1" "3"
    "unmatched-single" continueStopState (by decide) (by decide) (by decide) (by decide)
  exact ⟨h.1, h.2.1, h.2.2.1, h.2.2.2.1, h.2.2.2.2⟩

theorem string_append_left_cancel (a b c : String) (h : a ++ b = a ++ c) : b = c := by
  have hd : (a ++ b).data = (a ++ c).data := by rw [h]
  rw [String.data_append, String.data_append] at hd
  have h2 := List.append_cancel_left hd
  cases b; cases c
  exact congrArg String.mk h2

theorem perm_first_event_characterization (σ0 : BridgeState) (sid p1 : String)
    (ty ti : Option String) (pat : Option PatternValue) (cid : Option String)
    (ctx : SessionContext) (ak : String)
    (hctx : σ0.sessionToCtx sid = some ctx)
    (hak : σ0.sessionToAdapterKey sid = some ak)
    (hadapter : σ0.adapters ak = true)
    (hnopending : σ0.chatPendingAuthorization (ak ++ ":" ++ ctx.chatId) = none)
    (hfreshEvent : σ0.recentPermissionEventAt ("request" ++ ":" ++ sid ++ ":" ++ p1) = none)
    (hfreshPrompt : σ0.recentPermissionPromptBySession (ak ++ ":" ++ ctx.chatId) = none) :
    handlePermissionUpdatedEvent
        { sessionID := some sid, permissionID := some p1, ptype := ty, title := ti,
          pattern := pat, callID := cid, routeHint := none } σ0 =
      sendMessage
        (setAuthTimer
          (setPendingAuth
            (clearPendingAuthorizationForChat
              (setPromptCache
                (setEventAt σ0 ("request" ++ ":" ++ sid ++ ":" ++ p1) (some σ0.now))
                (ak ++ ":" ++ ctx.chatId)
                (some (σ0.now,
                  permissionSignature ty
                    (strOr (ti.getD "") (strOr (ty.getD "") "权限请求")) pat cid)))
              (ak ++ ":" ++ ctx.chatId))
            (ak ++ ":" ++ ctx.chatId)
            (some (permissionRequestPending sid p1 ty ti pat ak ctx.chatId ctx.senderId σ0.now)))
          (ak ++ ":" ++ ctx.chatId)
          (some { cacheKey := ak ++ ":" ++ ctx.chatId, sessionId := sid,
                  permissionID := some p1, forBlockedSession := false }))
        ctx.chatId
        (renderAuthorizationPrompt
          (permissionRequestPending sid p1 ty ti pat ak ctx.chatId ctx.senderId σ0.now)) := by
  unfold handlePermissionUpdatedEvent
  simp only [hydrateSessionRouteFromEventProps, shouldSkipDuplicatePermissionEvent,
    lruGetEventAt, hfreshEvent, getCacheKeyBySession, setEventAt, upd, hctx, hak,
    hadapter, hnopending, dedupeOrCreatePermissionPrompt, lruGetPrompt, hfreshPrompt,
    createPermissionRequestPrompt, permissionRequestPending, if_true, if_false]
  simp

theorem perm_second_event_silent (σ : BridgeState) (sid p2 : String)
    (ty ti : Option String) (pat : Option PatternValue) (cid : Option String)
    (ctx : SessionContext) (ak : String) (pending : PendingAuthorizationState)
    (hctx : σ.sessionToCtx sid = some ctx)
    (hak : σ.sessionToAdapterKey sid = some ak)
    (hadapter : σ.adapters ak = true)
    (hpending : σ.chatPendingAuthorization (ak ++ ":" ++ ctx.chatId) = some pending)
    (hmode : pending.mode = .permissionRequest)
    (hsess : pending.sessionId = sid)
    (hty : pending.permissionType = ty)
    (hti : pending.permissionTitle =
      some (strOr (ti.getD "") (strOr (ty.getD "") "权限请求")))
    (hpat : pending.permissionPattern = pat) :
    (handlePermissionUpdatedEvent
        { sessionID := some sid, permissionID := some p2, ptype := ty, title := ti,
          pattern := pat, callID := cid, routeHint := none } σ).outbox = σ.outbox ∧
    ∃ rec : PendingAuthorizationState,
      (handlePermissionUpdatedEvent
          { sessionID := some sid, permissionID := some p2, ptype := ty, title := ti,
            pattern := pat, callID := cid, routeHint := none } σ).chatPendingAuthorization
          (ak ++ ":" ++ ctx.chatId) = some rec ∧
      rec.mode = .permissionRequest ∧ rec.sessionId = sid ∧
      rec.permissionType = ty ∧
      rec.permissionTitle = some (strOr (ti.getD "") (strOr (ty.getD "") "权限请求")) ∧
      rec.permissionPattern = pat := by
  unfold handlePermissionUpdatedEvent
  simp only [hydrateSessionRouteFromEventProps, shouldSkipDuplicatePermissionEvent]
  cases hlast : lruGetEventAt σ.recentPermissionEventAt σ.now
      ("request" ++ ":" ++ sid ++ ":" ++ p2) with
  | some tprev =>
    by_cases hdec : σ.now - tprev < PERMISSION_DEDUPE_WINDOW_MS
    · simp only [hlast, hdec, decide_True, if_true, setEventAt]
      refine ⟨trivial, pending, ?_, hmode, hsess, hty, hti, hpat⟩
      simpa [upd] using hpending
    · simp [hlast, hdec, getCacheKeyBySession, setEventAt, upd, hctx, hak, hadapter,
        hpending, hmode, hsess, setPendingAuth]
  | none =>
    simp [hlast, getCacheKeyBySession, setEventAt, upd, hctx, hak, hadapter,
      hpending, hmode, hsess, setPendingAuth]

/-- C7: two `permission.updated` events for the same routed session carrying
the same (type, title, pattern, callID) content signature, the second
arriving within the 30-second prompt-dedupe window, produce exactly one
authorization prompt in the chat: the first creates the pending
`permission_request` record and sends the rendered prompt; the second sends
nothing and only refreshes the fields of the pending record. -/
theorem permission_prompt_dedupe (σ0 : BridgeState) (sid p1 p2 : String)
    (ty ti : Option String) (pat : Option PatternValue) (cid : Option String)
    (ctx : SessionContext) (ak : String) (t2 : Nat)
    (hctx : σ0.sessionToCtx sid = some ctx)
    (hak : σ0.sessionToAdapterKey sid = some ak)
    (hadapter : σ0.adapters ak = true)
    (hnopending : σ0.chatPendingAuthorization (ak ++ ":" ++ ctx.chatId) = none)
    (hfreshEvent : σ0.recentPermissionEventAt ("request" ++ ":" ++ sid ++ ":" ++ p1) = none)
    (hfreshPrompt : σ0.recentPermissionPromptBySession (ak ++ ":" ++ ctx.chatId) = none)
    (htime : σ0.now ≤ t2)
    (hwindow : t2 - σ0.now < PERMISSION_PROMPT_DEDUPE_WINDOW_MS) :
    ∃ rec1 : PendingAuthorizationState,
      (handlePermissionUpdatedEvent
          { sessionID := some sid, permissionID := some p1, ptype := ty, title := ti,
            pattern := pat, callID := cid, routeHint := none } σ0).outbox =
        (ctx.chatId, renderAuthorizationPrompt rec1) :: σ0.outbox ∧
      rec1.mode = .permissionRequest ∧
      (handlePermissionUpdatedEvent
          { sessionID := some sid, permissionID := some p2, ptype := ty, title := ti,
            pattern := pat, callID := cid, routeHint := none }
          { handlePermissionUpdatedEvent
              { sessionID := some sid, permissionID := some p1, ptype := ty, title := ti,
                pattern := pat, callID := cid, routeHint := none } σ0 with
            now := t2 }).outbox =
        (handlePermissionUpdatedEvent
            { sessionID := some sid, permissionID := some p1, ptype := ty, title := ti,
              pattern := pat, callID := cid, routeHint := none } σ0).outbox ∧
      (∃ rec2 : PendingAuthorizationState,
        (handlePermissionUpdatedEvent
            { sessionID := some sid, permissionID := some p2, ptype := ty, title := ti,
              pattern := pat, callID := cid, routeHint := none }
            { handlePermissionUpdatedEvent
                { sessionID := some sid, permissionID := some p1, ptype := ty, title := ti,
                  pattern := pat, callID := cid, routeHint := none } σ0 with
              now := t2 }).chatPendingAuthorization (ak ++ ":" ++ ctx.chatId) =
          some rec2 ∧
        rec2.mode = .permissionRequest ∧ rec2.sessionId = sid ∧
        rec2.permissionType = ty ∧
        rec2.permissionTitle =
          some (strOr (ti.getD "") (strOr (ty.getD "") "权限请求")) ∧
        rec2.permissionPattern = pat) := by
  have hchar := perm_first_event_characterization σ0 sid p1 ty ti pat cid ctx ak
    hctx hak hadapter hnopending hfreshEvent hfreshPrompt
  refine ⟨permissionRequestPending sid p1 ty ti pat ak ctx.chatId ctx.senderId σ0.now,
    ?_, rfl, ?_⟩
  · rw [hchar]
    simp [sendMessage, setAuthTimer, setPendingAuth, clearPendingAuthorizationForChat,
      setPromptCache, setEventAt]
  · exact perm_second_event_silent _ sid p2 ty ti pat cid ctx ak
      (permissionRequestPending sid p1 ty ti pat ak ctx.chatId ctx.senderId σ0.now)
      (by rw [hchar]
          simp [sendMessage, setAuthTimer, setPendingAuth,
            clearPendingAuthorizationForChat, setPromptCache, setEventAt, hctx])
      (by rw [hchar]
          simp [sendMessage, setAuthTimer, setPendingAuth,
            clearPendingAuthorizationForChat, setPromptCache, setEventAt, hak])
      (by rw [hchar]
          simp [sendMessage, setAuthTimer, setPendingAuth,
            clearPendingAuthorizationForChat, setPromptCache, setEventAt, hadapter])
      (by rw [hchar]
          simp [sendMessage, setAuthTimer, setPendingAuth,
            clearPendingAuthorizationForChat, setPromptCache, setEventAt, upd])
      rfl rfl rfl rfl rfl

/-- Witness for C7 at a concrete routed state: after both events exactly one
message is in the outbox and a pending permission request remains. -/
theorem permission_prompt_dedupe_witness :
    (handlePermissionUpdatedEvent
        { sessionID := some "s1", permissionID := some "p2",
          ptype := some "bash", title := some "Run bash",
          pattern := some (.str "ls *"), callID := some "call1", routeHint := none }
        { handlePermissionUpdatedEvent
            { sessionID := some "s1", permissionID := some "p1",
              ptype := some "bash", title := some "Run bash",
              pattern := some (.str "ls *"), callID := some "call1",
              routeHint := none } routedBridgeState with
          now := 1000 }).outbox =
      (handlePermissionUpdatedEvent
          { sessionID := some "s1", permissionID := some "p1",
            ptype := some "bash", title := some "Run bash",
            pattern := some (.str "ls *"), callID := some "call1",
            routeHint := none } routedBridgeState).outbox ∧
    (handlePermissionUpdatedEvent
        { sessionID := some "s1", permissionID := some "p1",
          ptype := some "bash", title := some "Run bash",
          pattern := some (.str "ls *"), callID := some "call1",
          routeHint := none } routedBridgeState).outbox.length = 1 ∧
    ((handlePermissionUpdatedEvent
        { sessionID := some "s1", permissionID := some "p2",
          ptype := some "bash", title := some "Run bash",
          pattern := some (.str "ls *"), callID := some "call1", routeHint := none }
        { handlePermissionUpdatedEvent
            { sessionID := some "s1", permissionID := some "p1",
              ptype := some "bash", title := some "Run bash",
              pattern := some (.str "ls *"), callID := some "call1",
              routeHint := none } routedBridgeState with
          now := 1000 }).chatPendingAuthorization "tg:chat1").isSome = true := by
  obtain ⟨rec1, h1, hmode1, houtbox, rec2, h2, hrest⟩ :=
    permission_prompt_dedupe routedBridgeState "s1" "p1" "p2" (some "bash")
      (some "Run bash") (some (.str "ls *")) (some "call1")
      { chatId := "chat1", senderId := "u1" } "tg" 1000
      (by decide) (by decide) (by decide) (by decide) (by decide) (by decide)
      (by decide) (by decide)
  refine ⟨houtbox, ?_, ?_⟩
  · rw [h1]
    simp [routedBridgeState, emptyBridgeState]
  · exact Option.isSome_iff_exists.mpr ⟨rec2, h2⟩
